import Mathlib

/-!
Verification development for the Digital Raitha agricultural advisory system.

The definitions below are a shallow embedding of the Python sources:
* `src/models/recommendation/engine.py` (the `AgriRecommendationEngine` class),
* `src/data/process_historical_datasets.py` (dataset normalizer, long-form
  transformer and feature merger),
* `src/models/preprocessing/data_processor.py` (the `DataProcessor` class,
  whose relevant methods are line-for-line copies of the module functions in
  `process_historical_datasets.py`).

Python floats are embedded as rationals (all arithmetic in the embedded code
is exact on the inputs considered), Python strings as Lean `String`
(manipulated through their character lists), pandas data frames as explicit
column-store records, and `None`-returning functions as `Option`-valued ones.
-/

set_option maxRecDepth 20000

namespace DigitalRaita

/-! ## Data model of `engine.py` -/

/-- `SoilData` dataclass from `engine.py`. -/
structure SoilData where
  ph : ℚ
  organic_carbon : ℚ
  nitrogen : ℚ
  phosphorus : ℚ
  potassium : ℚ
  texture : String
  drainage : String
deriving DecidableEq

/-- `WeatherData` dataclass from `engine.py`. -/
structure WeatherData where
  rainfall_mm : ℚ
  temperature_c : ℚ
  humidity : ℚ
  solar_radiation : ℚ
deriving DecidableEq

/-- `EconomicData` dataclass from `engine.py`. -/
structure EconomicData where
  budget_inr : ℚ
  labor_availability : String
  input_cost_type : String
deriving DecidableEq

/-- `CropType` enumeration from `engine.py`. -/
inductive CropType where
  | cereal
  | pulse
  | oilseed
  | fiber
  | fruit
  | vegetable
  | spice
deriving DecidableEq

/-- One entry of the `crop_suitability` rule table in `engine.py`. -/
structure CropRules where
  ph_min : ℚ
  ph_max : ℚ
  temp_min : ℚ
  temp_max : ℚ
  rainfall_min : ℚ
  rainfall_max : ℚ
  soil_types : List String
  crop_type : CropType
deriving DecidableEq

/-- The `Maize` entry of the `crop_suitability` table. -/
def maize_rules : CropRules :=
  { ph_min := 5.5, ph_max := 7.5, temp_min := 15, temp_max := 35,
    rainfall_min := 500, rainfall_max := 1500,
    soil_types := ["Loam", "Sandy Loam"], crop_type := CropType.cereal }

/-- The `Cowpea` entry of the `crop_suitability` table. -/
def cowpea_rules : CropRules :=
  { ph_min := 5.5, ph_max := 7.0, temp_min := 20, temp_max := 35,
    rainfall_min := 400, rainfall_max := 1200,
    soil_types := ["Loam", "Sandy Loam", "Clay Loam"], crop_type := CropType.pulse }

/-- The `Mango` entry of the `crop_suitability` table. -/
def mango_rules : CropRules :=
  { ph_min := 5.5, ph_max := 7.5, temp_min := 20, temp_max := 40,
    rainfall_min := 600, rainfall_max := 2500,
    soil_types := ["Loam", "Sandy Loam", "Clay Loam"], crop_type := CropType.fruit }

/-- The `Gliricidia` entry of the `crop_suitability` table. -/
def gliricidia_rules : CropRules :=
  { ph_min := 5.0, ph_max := 8.0, temp_min := 15, temp_max := 35,
    rainfall_min := 500, rainfall_max := 2500,
    soil_types := ["Loam", "Sandy Loam", "Clay Loam", "Sandy"],
    crop_type := CropType.fiber }

/-- The `Turmeric` entry of the `crop_suitability` table. -/
def turmeric_rules : CropRules :=
  { ph_min := 4.5, ph_max := 7.5, temp_min := 20, temp_max := 35,
    rainfall_min := 1000, rainfall_max := 2500,
    soil_types := ["Loam", "Clay Loam"], crop_type := CropType.spice }

/-- The `Sorghum` entry of the `crop_suitability` table. -/
def sorghum_rules : CropRules :=
  { ph_min := 5.5, ph_max := 7.5, temp_min := 15, temp_max := 35,
    rainfall_min := 300, rainfall_max := 1000,
    soil_types := ["Loam", "Sandy Loam", "Clay Loam", "Sandy"],
    crop_type := CropType.cereal }

/-- The `crop_suitability` rule table initialized in
`AgriRecommendationEngine.__init__` (insertion order preserved). -/
def crop_suitability : List (String × CropRules) :=
  [ ("Maize", maize_rules),
    ("Cowpea", cowpea_rules),
    ("Mango", mango_rules),
    ("Gliricidia", gliricidia_rules),
    ("Turmeric", turmeric_rules),
    ("Sorghum", sorghum_rules) ]

/-- One entry of the `tree_suitability` table in `engine.py`. -/
structure TreeInfo where
  spacing : String
  maturity_years : ℚ
  yield_per_tree_kg : ℚ
deriving DecidableEq

/-- The static `tree_suitability` table initialized in
`AgriRecommendationEngine.__init__` (two entries, in insertion order). -/
def tree_suitability : List (String × TreeInfo) :=
  [ ("Mango", { spacing := "10x10m", maturity_years := 4, yield_per_tree_kg := 200 }),
    ("Gliricidia", { spacing := "2x2m", maturity_years := 2, yield_per_tree_kg := 15 }) ]

/-- The `layout_patterns` table from `engine.py` (name, description, spacing). -/
def layout_patterns : List (String × String × String) :=
  [ ("Alley Cropping", ("Alternate rows of trees and crops", "5-10m between tree rows")),
    ("Boundary Planting", ("Trees planted along field boundaries", "Along perimeter")),
    ("Mixed System", ("Trees scattered throughout the field", "Variable based on species")) ]

/-- The fixed `sustainability_tips_base` list from `engine.py`. -/
def sustainability_tips_base : List String :=
  [ "Apply compost from residues and cow dung",
    "Use drip irrigation to optimize water",
    "Rotate crops every two seasons",
    "Plant nitrogen-fixing legumes to improve soil fertility",
    "Use organic mulch to retain moisture and suppress weeds",
    "Practice intercropping to maximize land use efficiency" ]

/-! ## Suitability scoring (`engine.py` lines 151-239) -/

/-- `AgriRecommendationEngine.assess_soil_suitability`. -/
def assess_soil_suitability (soil_data : SoilData) (crop_name : String) : ℚ :=
  match List.lookup crop_name crop_suitability with
  | none => 0
  | some crop_rules =>
    let ph_score : ℚ :=
      if crop_rules.ph_min ≤ soil_data.ph ∧ soil_data.ph ≤ crop_rules.ph_max then 1 else 0.5
    let soil_type_score : ℚ :=
      if soil_data.texture ∈ crop_rules.soil_types then 1 else 0.7
    let oc_score : ℚ := min 1 (soil_data.organic_carbon / 2)
    ph_score * 0.3 + soil_type_score * 0.3 + oc_score * 0.4

/-- The rainfall branch of `AgriRecommendationEngine.assess_weather_suitability`
(`engine.py` lines 200-206), extracted as a function of the rule entry and the
actual rainfall. -/
def rainfall_score (crop_rules : CropRules) (rainfall_mm : ℚ) : ℚ :=
  if rainfall_mm < crop_rules.rainfall_min then rainfall_mm / crop_rules.rainfall_min
  else if crop_rules.rainfall_max < rainfall_mm then crop_rules.rainfall_max / rainfall_mm
  else 1

/-- `AgriRecommendationEngine.assess_weather_suitability`. -/
def assess_weather_suitability (weather_data : WeatherData) (crop_name : String) : ℚ :=
  match List.lookup crop_name crop_suitability with
  | none => 0
  | some crop_rules =>
    let temp_score : ℚ :=
      if crop_rules.temp_min ≤ weather_data.temperature_c ∧
          weather_data.temperature_c ≤ crop_rules.temp_max then 1 else 0.5
    temp_score * 0.6 + rainfall_score crop_rules weather_data.rainfall_mm * 0.4

/-- The combined suitability score computed inside
`AgriRecommendationEngine.recommend_crops` (`engine.py` line 231). -/
def combined_score (soil_data : SoilData) (weather_data : WeatherData)
    (crop_name : String) : ℚ :=
  (assess_soil_suitability soil_data crop_name +
    assess_weather_suitability weather_data crop_name) / 2

/-! Python `list.sort(key=..., reverse=True)` is a stable descending sort.
We model it with a stable insertion sort: an element is inserted in front of
the first element with a smaller-or-equal score, so elements with equal
scores keep their original relative order. -/

/-- Stable insertion of one scored crop into a descending-sorted list. -/
def insertScoredDesc (p : String × ℚ) : List (String × ℚ) → List (String × ℚ)
  | [] => [p]
  | q :: qs => if q.2 ≤ p.2 then p :: q :: qs else q :: insertScoredDesc p qs

/-- Stable sort of scored crops in descending score order, modelling
`crop_scores.sort(key=lambda x: x[1], reverse=True)`. -/
def sortScoredDesc : List (String × ℚ) → List (String × ℚ)
  | [] => []
  | x :: xs => insertScoredDesc x (sortScoredDesc xs)

/-- `AgriRecommendationEngine.recommend_crops`: score every crop of the rule
table, sort descending, keep scores strictly above 0.5, return the top 5. -/
def recommend_crops (soil_data : SoilData) (weather_data : WeatherData) :
    List (String × ℚ) :=
  let crop_scores :=
    crop_suitability.map (fun c => (c.1, combined_score soil_data weather_data c.1))
  ((sortScoredDesc crop_scores).filter (fun p => decide ((0.5 : ℚ) < p.2))).take 5

/-- `AgriRecommendationEngine.recommend_trees`: the soil and weather arguments
are ignored and every entry of the static table is returned in order. -/
def recommend_trees (_soil_data : SoilData) (_weather_data : WeatherData) :
    List (String × TreeInfo) :=
  tree_suitability

/-- `AgriRecommendationEngine.determine_layout`. -/
def determine_layout (soil_data : SoilData) (weather_data : WeatherData) :
    String × String :=
  if soil_data.texture = "Sandy" ∧ weather_data.rainfall_mm < 600 then
    ("Boundary Planting", "Trees planted along field boundaries")
  else if 1200 < weather_data.rainfall_mm then
    ("Mixed System", "Trees scattered throughout the field")
  else
    ("Alley Cropping", "Alternate rows of trees and crops")

/-- The `base_yields` table of `AgriRecommendationEngine.estimate_yield`. -/
def base_yields : List (String × ℚ) :=
  [ ("Maize", 4000), ("Sorghum", 3000), ("Cowpea", 1000), ("Turmeric", 2000) ]

/-- `AgriRecommendationEngine.estimate_yield`. -/
def estimate_yield (main_crop : String) (land_area_acres : ℚ) : ℚ :=
  (List.lookup main_crop base_yields).getD 2500 * land_area_acres

/-- The `crop_prices` table of `AgriRecommendationEngine.estimate_profit`. -/
def crop_prices : List (String × ℚ) :=
  [ ("Maize", 20), ("Sorghum", 25), ("Cowpea", 50), ("Turmeric", 100), ("Mango", 60) ]

/-- Python `int(...)` on a rational: truncation toward zero. -/
def pyInt (q : ℚ) : ℤ := if 0 ≤ q then ⌊q⌋ else ⌈q⌉

/-- `AgriRecommendationEngine.estimate_profit`, returning (profit, roi). -/
def estimate_profit (main_crop intercrop : String) (trees : List String)
    (land_area_acres budget_inr : ℚ) : ℚ × ℚ :=
  let main_crop_yield := estimate_yield main_crop land_area_acres
  let intercrop_yield := estimate_yield intercrop (land_area_acres * 0.3)
  let tree_yield : ℚ :=
    if "Mango" ∈ trees then (pyInt (land_area_acres * 20) : ℚ) * 200 else 0
  let main_crop_income := main_crop_yield * (List.lookup main_crop crop_prices).getD 25
  let intercrop_income := intercrop_yield * (List.lookup intercrop crop_prices).getD 30
  let tree_income := tree_yield * (List.lookup "Mango" crop_prices).getD 60
  let total_income := main_crop_income + intercrop_income + tree_income
  let total_cost := budget_inr * 0.6
  let profit := total_income - total_cost
  let roi := if 0 < total_cost then profit / total_cost else 0
  (profit, roi)

/-- `AgriRecommendationEngine.generate_sustainability_tips`. -/
def generate_sustainability_tips (soil_data : SoilData)
    (weather_data : WeatherData) : List String :=
  let tips := sustainability_tips_base
  let tips := if soil_data.organic_carbon < 1 then
      tips ++ ["Soil organic carbon is low. Increase compost application."] else tips
  let tips := if soil_data.ph < 5.5 then
      tips ++ ["Soil is acidic. Consider liming to raise pH."]
    else if 8.0 < soil_data.ph then
      tips ++ ["Soil is alkaline. Add organic matter to lower pH."]
    else tips
  let tips := if weather_data.rainfall_mm < 500 then
      tips ++ ["Low rainfall area. Focus on drought-resistant crops and water conservation."]
    else if 1500 < weather_data.rainfall_mm then
      tips ++ ["High rainfall area. Ensure proper drainage to prevent waterlogging."]
    else tips
  tips

/-- The `Recommendation` dataclass from `engine.py`. -/
structure Recommendation where
  main_crop : String
  intercrop : String
  trees : List String
  layout : String
  expected_yield_kg : ℚ
  profit_estimate_inr : ℚ
  roi : ℚ
  sustainability_tips : List String
deriving DecidableEq

/-- The crop category recorded for a crop name in the rule table. -/
def crop_type_of (crop_name : String) : Option CropType :=
  (List.lookup crop_name crop_suitability).map (fun r => r.crop_type)

/-- The main-crop / intercrop selection logic of
`AgriRecommendationEngine.generate_recommendation` (`engine.py` lines
404-420): fall back to Maize and Cowpea on an empty candidate list, otherwise
take the head as main crop and scan the remaining candidates for the first
one whose crop category differs from the main crop. -/
def select_main_and_intercrop (crop_recommendations : List (String × ℚ)) :
    String × String :=
  match crop_recommendations with
  | [] => ("Maize", "Cowpea")
  | p :: rest =>
    let main_crop_type := crop_type_of p.1
    let intercrop :=
      match rest.find? (fun q => decide (crop_type_of q.1 ≠ main_crop_type)) with
      | some q => q.1
      | none => "Cowpea"
    (p.1, intercrop)

/-- `AgriRecommendationEngine.generate_recommendation`. -/
def generate_recommendation (soil_data : SoilData) (weather_data : WeatherData)
    (economic_data : EconomicData) (land_area_acres : ℚ)
    (_location : String) : Recommendation :=
  let crop_recommendations := recommend_crops soil_data weather_data
  let mi := select_main_and_intercrop crop_recommendations
  let tree_recommendations := recommend_trees soil_data weather_data
  let trees := (tree_recommendations.take 2).map Prod.fst
  let layout := (determine_layout soil_data weather_data).1
  let expected_yield_kg := estimate_yield mi.1 land_area_acres
  let pr := estimate_profit mi.1 mi.2 trees land_area_acres economic_data.budget_inr
  { main_crop := mi.1
    intercrop := mi.2
    trees := trees
    layout := layout
    expected_yield_kg := expected_yield_kg
    profit_estimate_inr := pr.1
    roi := pr.2
    sustainability_tips := generate_sustainability_tips soil_data weather_data }

/-! ## Dataset processing (`src/data/process_historical_datasets.py`)

Python string primitives used by the normalizer, modelled on character
lists: `str.strip()` (strip surrounding whitespace), `str.replace(a, b)` for
one-character patterns, and `str.replace(a, "")` (removal). -/

/-- The characters stripped by Python `str.strip()`. -/
def pyIsSpace (c : Char) : Bool :=
  c = ' ' || c = '\t' || c = '\n' || c = '\r' || c = Char.ofNat 11 || c = Char.ofNat 12

/-- Python `str.strip()` on a character list. -/
def pyStrip (s : List Char) : List Char :=
  ((s.dropWhile pyIsSpace).reverse.dropWhile pyIsSpace).reverse

/-- Python `str.replace(a, b)` for single characters `a`, `b`. -/
def pyReplaceChar (a b : Char) (s : List Char) : List Char :=
  s.map (fun c => if c = a then b else c)

/-- Python `str.replace(a, "")` for a single character `a`. -/
def pyRemoveChar (a : Char) (s : List Char) : List Char :=
  s.filter (fun c => decide (c ≠ a))

/-- The `standardizations` alias table of `standardize_crop_names` in
`process_historical_datasets.py` (insertion order preserved). -/
def crop_name_standardizations : List (String × String) :=
  [ ("Food grains (cereals) - Rice", "Rice"),
    ("Food grains (cereals) - Wheat", "Wheat"),
    ("Food grains (cereals) - Jowar", "Jowar"),
    ("Food grains (cereals) - Bajra", "Bajra"),
    ("Food grains (cereals) - Maize", "Maize"),
    ("Food grains (cereals) - Ragi", "Ragi"),
    ("Foodgrains(cereals) - Rice", "Rice"),
    ("Foodgrains(cereals) - Wheat", "Wheat"),
    ("Foodgrains(cereals) - Jowar", "Jowar"),
    ("Foodgrains(cereals) - Bajra", "Bajra"),
    ("Foodgrains(cereals) - Maize", "Maize"),
    ("Foodgrains(cereals) - Ragi", "Ragi"),
    ("Food Grains (Cereals) - Rice (000 tonnes)", "Rice"),
    ("Food Grains (Cereals) - Wheat (000 tonnes)", "Wheat"),
    ("Food Grains (Cereals) - Jowar (000 tonnes)", "Jowar"),
    ("Food Grains (Cereals) - Bajra (000 tonnes)", "Bajra"),
    ("Food Grains (Cereals) - Maize (000 tonnes)", "Maize"),
    ("Food Grains (Cereals) - Ragi (000 tonnes)", "Ragi"),
    ("Food grains(pulses) - Tur", "Tur"),
    ("Food grains(pulses) - Gram", "Gram"),
    ("Food grains(pulses) - Other Pulses", "Other Pulses"),
    ("Foodgrains(pulses) - Tur", "Tur"),
    ("Foodgrains(pulses) - Gram", "Gram"),
    ("Foodgrains(pulses) - Other pulses", "Other Pulses"),
    ("Food Grains (Pulses) - Tur (000 tonnes)", "Tur"),
    ("Food Grains (Pulses) - Gram (000 tonnes)", "Gram"),
    ("Food Grains (Pulses) - Other Pulses (000 tonnes)", "Other Pulses") ]

/-- The fallback cleaning step of `standardize_crop_names`:
`.replace(' ', '_').replace('-', '_').replace('(', '').replace(')', '').replace(',', '')`. -/
def clean_crop_name (name : String) : String :=
  ⟨ pyRemoveChar ',' (pyRemoveChar ')' (pyRemoveChar '(' (pyReplaceChar '-' '_'
      (pyReplaceChar ' ' '_' name.toList))))⟩

/-- `standardize_crop_names` from `process_historical_datasets.py`. -/
def standardize_crop_names (name : String) : String :=
  let name : String := ⟨pyStrip name.toList⟩
  match List.lookup name crop_name_standardizations with
  | some canon => canon
  | none => clean_crop_name name

/-- A wide pandas data frame as consumed by
`prepare_crop_data_for_merging`: whether a `Year` column is present, the
values of the `Year` column, and the remaining (crop) columns, each a name
with its cell values. A cell is `some q` when `pd.to_numeric(..,
errors='coerce')` yields the number `q` and `none` when it yields `NaN`. -/
structure WideTable where
  hasYear : Bool
  yearVals : List String
  cropCols : List (String × List (Option ℚ))

/-- One row of the melted (long-form) frame before numeric coercion. -/
structure MeltedRow where
  year : String
  crop : String
  value : Option ℚ
deriving DecidableEq

/-- One row of the long-form frame after coercion and `dropna`. -/
structure LongRow where
  year : String
  crop : String
  value : ℚ
deriving DecidableEq

/-- `df.melt(id_vars=['Year'], value_vars=crop_columns, ...)`: stack the crop
columns one after the other, pairing each cell with its `Year` value. -/
def melt_wide (t : WideTable) : List MeltedRow :=
  t.cropCols.flatMap (fun col =>
    (t.yearVals.zip col.2).map (fun yv => MeltedRow.mk yv.1 col.1 yv.2))

/-- `prepare_crop_data_for_merging` from `process_historical_datasets.py`:
`None` input propagates, a frame without a `Year` column yields `None`,
otherwise melt, coerce to numeric, drop missing rows, standardize crop
names. The `data_type` argument only names the value column and is implicit
in the `LongRow` field layout. -/
def prepare_crop_data_for_merging (df : Option WideTable) : Option (List LongRow) :=
  match df with
  | none => none
  | some t =>
    if t.hasYear then
      some (((melt_wide t).filterMap
          (fun r => r.value.map (fun q => LongRow.mk r.year r.crop q))).map
        (fun r => LongRow.mk r.year (standardize_crop_names r.crop) r.value))
    else none

/-- A row of the fully merged frame (Crop, Year, Area, Yield, Production). -/
structure MergedRow where
  crop : String
  year : String
  area : ℚ
  yieldVal : ℚ
  production : ℚ
deriving DecidableEq

/-- `pd.merge(area_df, yield_df, on=["Crop", "Year"], how="inner")`: for each
left row in order, emit one combined row per matching right row. -/
def merge_area_yield (a y : List LongRow) : List (String × String × ℚ × ℚ) :=
  a.flatMap (fun ra =>
    (y.filter (fun ry => decide (ry.crop = ra.crop ∧ ry.year = ra.year))).map
      (fun ry => (ra.crop, ra.year, ra.value, ry.value)))

/-- `pd.merge(merged_df, production_df, on=["Crop", "Year"], how="inner")`. -/
def merge_with_production (m : List (String × String × ℚ × ℚ)) (p : List LongRow) :
    List MergedRow :=
  m.flatMap (fun rm =>
    (p.filter (fun rp => decide (rp.crop = rm.1 ∧ rp.year = rm.2.1))).map
      (fun rp => MergedRow.mk rm.1 rm.2.1 rm.2.2.1 rm.2.2.2 rp.value))

/-- Ordered insertion of a group key (pandas `groupby` sorts keys). -/
def insertKeyAsc (k : String) : List String → List String
  | [] => [k]
  | x :: xs => if k < x then k :: x :: xs else x :: insertKeyAsc k xs

/-- Insertion sort of group keys in ascending order. -/
def sortKeysAsc : List String → List String
  | [] => []
  | x :: xs => insertKeyAsc x (sortKeysAsc xs)

/-- The group keys of `merged_df.groupby('Crop')`: distinct crops, sorted. -/
def group_keys (rows : List MergedRow) : List String :=
  sortKeysAsc ((rows.map (fun r => r.crop)).eraseDups)

/-- Arithmetic mean of a list of rationals (pandas `.mean()` per group; every
group a mean is taken over is nonempty by construction). -/
def listMean (l : List ℚ) : ℚ := l.sum / l.length

/-- The feature-key cleaning of `create_derived_features`:
`str(crop).replace(' ', '_').replace('-', '_')`. -/
def clean_feature_crop (s : String) : String :=
  ⟨pyReplaceChar '-' '_' (pyReplaceChar ' ' '_' s.toList)⟩

/-- `create_derived_features` from `process_historical_datasets.py`, taking
the `area`, `yield` and `production` entries of the `datasets` dictionary.
If any prepared table is `None` the feature dictionary stays empty; the
try/except of the source never lets an exception escape, so the embedding is
a total function into the feature dictionary (an association list). -/
def create_derived_features (area yieldData production : Option WideTable) :
    List (String × ℚ) :=
  let area_df := prepare_crop_data_for_merging area
  let yield_df := prepare_crop_data_for_merging yieldData
  let production_df := prepare_crop_data_for_merging production
  if area_df.isNone || yield_df.isNone || production_df.isNone then []
  else
    let merged := merge_with_production
      (merge_area_yield (area_df.getD []) (yield_df.getD [])) (production_df.getD [])
    let merged := merged.filter (fun r => decide (0 < r.area))
    if merged.isEmpty then []
    else
      (group_keys merged).flatMap (fun crop =>
        let rows := merged.filter (fun r => decide (r.crop = crop))
        [ ("yield_per_area_" ++ clean_feature_crop crop,
            listMean (rows.map (fun r => r.production / r.area))),
          ("yield_efficiency_" ++ clean_feature_crop crop,
            listMean (rows.map (fun r => r.yieldVal / r.area))) ])

/-! ## The `DataProcessor` copies
(`src/models/preprocessing/data_processor.py`, lines 179-335)

The class methods `DataProcessor.standardize_crop_names`,
`DataProcessor.prepare_crop_data_for_merging` and
`DataProcessor.create_derived_features` are line-for-line copies of the
module-level functions above (including a second copy of the alias table,
re-created inside the method body); they are embedded separately here so
that the equivalence claim can be stated about two independent definitions.
The pandas primitives (`melt`, `merge`, `groupby`) are the same library
functions in both files and are therefore shared. -/

namespace DataProcessor

/-- The `standardizations` dict literal inside
`DataProcessor.standardize_crop_names`. -/
def standardizations : List (String × String) :=
  [ ("Food grains (cereals) - Rice", "Rice"),
    ("Food grains (cereals) - Wheat", "Wheat"),
    ("Food grains (cereals) - Jowar", "Jowar"),
    ("Food grains (cereals) - Bajra", "Bajra"),
    ("Food grains (cereals) - Maize", "Maize"),
    ("Food grains (cereals) - Ragi", "Ragi"),
    ("Foodgrains(cereals) - Rice", "Rice"),
    ("Foodgrains(cereals) - Wheat", "Wheat"),
    ("Foodgrains(cereals) - Jowar", "Jowar"),
    ("Foodgrains(cereals) - Bajra", "Bajra"),
    ("Foodgrains(cereals) - Maize", "Maize"),
    ("Foodgrains(cereals) - Ragi", "Ragi"),
    ("Food Grains (Cereals) - Rice (000 tonnes)", "Rice"),
    ("Food Grains (Cereals) - Wheat (000 tonnes)", "Wheat"),
    ("Food Grains (Cereals) - Jowar (000 tonnes)", "Jowar"),
    ("Food Grains (Cereals) - Bajra (000 tonnes)", "Bajra"),
    ("Food Grains (Cereals) - Maize (000 tonnes)", "Maize"),
    ("Food Grains (Cereals) - Ragi (000 tonnes)", "Ragi"),
    ("Food grains(pulses) - Tur", "Tur"),
    ("Food grains(pulses) - Gram", "Gram"),
    ("Food grains(pulses) - Other Pulses", "Other Pulses"),
    ("Foodgrains(pulses) - Tur", "Tur"),
    ("Foodgrains(pulses) - Gram", "Gram"),
    ("Foodgrains(pulses) - Other pulses", "Other Pulses"),
    ("Food Grains (Pulses) - Tur (000 tonnes)", "Tur"),
    ("Food Grains (Pulses) - Gram (000 tonnes)", "Gram"),
    ("Food Grains (Pulses) - Other Pulses (000 tonnes)", "Other Pulses") ]

/-- `DataProcessor.standardize_crop_names` (`data_processor.py` 179-229). -/
def standardize_crop_names (name : String) : String :=
  let name : String := ⟨pyStrip name.toList⟩
  match List.lookup name standardizations with
  | some canon => canon
  | none =>
    ⟨ pyRemoveChar ',' (pyRemoveChar ')' (pyRemoveChar '(' (pyReplaceChar '-' '_'
        (pyReplaceChar ' ' '_' name.toList))))⟩

/-- `DataProcessor.prepare_crop_data_for_merging` (`data_processor.py` 231-263). -/
def prepare_crop_data_for_merging (df : Option WideTable) : Option (List LongRow) :=
  match df with
  | none => none
  | some t =>
    if t.hasYear then
      some (((melt_wide t).filterMap
          (fun r => r.value.map (fun q => LongRow.mk r.year r.crop q))).map
        (fun r => LongRow.mk r.year (standardize_crop_names r.crop) r.value))
    else none

/-- `DataProcessor.create_derived_features` (`data_processor.py` 265-335). -/
def create_derived_features (area yieldData production : Option WideTable) :
    List (String × ℚ) :=
  let area_df := prepare_crop_data_for_merging area
  let yield_df := prepare_crop_data_for_merging yieldData
  let production_df := prepare_crop_data_for_merging production
  if area_df.isNone || yield_df.isNone || production_df.isNone then []
  else
    let merged := merge_with_production
      (merge_area_yield (area_df.getD []) (yield_df.getD [])) (production_df.getD [])
    let merged := merged.filter (fun r => decide (0 < r.area))
    if merged.isEmpty then []
    else
      (group_keys merged).flatMap (fun crop =>
        let rows := merged.filter (fun r => decide (r.crop = crop))
        [ ("yield_per_area_" ++ clean_feature_crop crop,
            listMean (rows.map (fun r => r.production / r.area))),
          ("yield_efficiency_" ++ clean_feature_crop crop,
            listMean (rows.map (fun r => r.yieldVal / r.area))) ])

end DataProcessor

/-! ## Auxiliary lemmas -/

theorem lookup_mem {α β : Type} [BEq α] [LawfulBEq α] {l : List (α × β)} {a : α}
    {b : β} (h : List.lookup a l = some b) : (a, b) ∈ l := by
  induction l with
  | nil => simp [List.lookup] at h
  | cons p l ih =>
    obtain ⟨k, v⟩ := p
    rw [List.lookup] at h
    split at h
    · next heq =>
      obtain rfl : a = k := eq_of_beq heq
      obtain rfl : v = b := by injection h
      exact List.mem_cons_self _ _
    · exact List.mem_cons_of_mem _ (ih h)

theorem insertScoredDesc_perm (p : String × ℚ) (l : List (String × ℚ)) :
    (insertScoredDesc p l).Perm (p :: l) := by
  induction l with
  | nil => simp [insertScoredDesc]
  | cons q qs ih =>
    rw [insertScoredDesc]
    split
    · exact List.Perm.refl _
    · exact (ih.cons q).trans (List.Perm.swap p q qs)

theorem sortScoredDesc_perm (l : List (String × ℚ)) : (sortScoredDesc l).Perm l := by
  induction l with
  | nil => exact List.Perm.refl _
  | cons x xs ih => exact (insertScoredDesc_perm x (sortScoredDesc xs)).trans (ih.cons x)

theorem insertScoredDesc_pairwise {p : String × ℚ} {l : List (String × ℚ)}
    (h : l.Pairwise (fun a b => b.2 ≤ a.2)) :
    (insertScoredDesc p l).Pairwise (fun a b => b.2 ≤ a.2) := by
  induction l with
  | nil => simp [insertScoredDesc]
  | cons q qs ih =>
    rw [List.pairwise_cons] at h
    rw [insertScoredDesc]
    split
    · next hle =>
      refine List.pairwise_cons.2 ⟨?_, List.pairwise_cons.2 h⟩
      intro b hb
      rcases List.mem_cons.1 hb with rfl | hb
      · exact hle
      · exact le_trans (h.1 b hb) hle
    · next hle =>
      refine List.pairwise_cons.2 ⟨?_, ih h.2⟩
      intro b hb
      rcases List.mem_cons.1 ((insertScoredDesc_perm p qs).mem_iff.1 hb) with rfl | hb
      · exact (lt_of_not_le hle).le
      · exact h.1 b hb

theorem sortScoredDesc_pairwise (l : List (String × ℚ)) :
    (sortScoredDesc l).Pairwise (fun a b => b.2 ≤ a.2) := by
  induction l with
  | nil => simp [sortScoredDesc]
  | cons x xs ih => exact insertScoredDesc_pairwise ih

theorem mem_take_or_length_eq {α : Type} {p : α} {l : List α} (n : ℕ) (h : p ∈ l) :
    p ∈ l.take n ∨ (l.take n).length = n := by
  rcases le_or_lt l.length n with hle | hlt
  · exact Or.inl (by rwa [List.take_of_length_le hle])
  · exact Or.inr (by rw [List.length_take]; exact min_eq_left hlt.le)

theorem mem_pyReplaceChar {a b c : Char} {s : List Char}
    (h : c ∈ pyReplaceChar a b s) : c = b ∨ c ∈ s := by
  rcases List.mem_map.1 h with ⟨d, hd, hcd⟩
  by_cases hda : d = a
  · left; rw [← hcd]; simp [hda]
  · right; rw [← hcd]; simpa [hda] using hd

theorem ne_of_mem_pyReplaceChar {a b c : Char} {s : List Char} (hba : b ≠ a)
    (h : c ∈ pyReplaceChar a b s) : c ≠ a := by
  rcases List.mem_map.1 h with ⟨d, _, hcd⟩
  by_cases hda : d = a
  · rw [← hcd]; simpa [hda] using hba
  · rw [← hcd]; simp [hda]

theorem mem_pyRemoveChar {a c : Char} {s : List Char} :
    c ∈ pyRemoveChar a s ↔ c ∈ s ∧ c ≠ a := by
  simp [pyRemoveChar, List.mem_filter]

/-- The rainfall bounds of every entry of the rule table are positive and
ordered. -/
theorem crop_rules_rainfall_pos :
    ∀ p ∈ crop_suitability, 0 < p.2.rainfall_min ∧ p.2.rainfall_min ≤ p.2.rainfall_max := by
  intro p hp
  simp only [crop_suitability, List.mem_cons, List.not_mem_nil, or_false] at hp
  rcases hp with rfl | rfl | rfl | rfl | rfl | rfl <;>
    norm_num [maize_rules, cowpea_rules, mango_rules, gliricidia_rules,
      turmeric_rules, sorghum_rules]

/-! ## Example inputs (the sample advisory request from `engine.py`) -/

/-- The sample `SoilData` from the `__main__` block of `engine.py`. -/
def example_soil : SoilData :=
  { ph := 6.7, organic_carbon := 1.2, nitrogen := 150, phosphorus := 40,
    potassium := 200, texture := "Loam", drainage := "Moderate" }

/-- The sample `WeatherData` from the `__main__` block of `engine.py`. -/
def example_weather : WeatherData :=
  { rainfall_mm := 850, temperature_c := 28, humidity := 65, solar_radiation := 5.5 }

/-- The sample `EconomicData` from the `__main__` block of `engine.py`. -/
def example_economic : EconomicData :=
  { budget_inr := 60000, labor_availability := "Medium", input_cost_type := "Organic" }

/-- A degraded soil input: pH and texture outside every rule, no organic
carbon. -/
def barren_soil : SoilData :=
  { ph := 0, organic_carbon := 0, nitrogen := 0, phosphorus := 0,
    potassium := 0, texture := "Peat", drainage := "Poor" }

/-- A degraded weather input: freezing and completely dry. -/
def arid_weather : WeatherData :=
  { rainfall_mm := 0, temperature_c := 0, humidity := 0, solar_radiation := 0 }

/-! ## Claims -/

/-- **C1**: for every crop in the rule table, the soil suitability score is
`0.3 * (pH in range ? 1 : 0.5) + 0.3 * (texture accepted ? 1 : 0.7) +
0.4 * min 1 (organic_carbon / 2)`, the weather suitability score is
`0.6 * (temperature in range ? 1 : 0.5) + 0.4 * rainfall score`, and the
combined score is the arithmetic mean of the two. -/
theorem suitability_score_formulas (crop_name : String) (r : CropRules)
    (h : List.lookup crop_name crop_suitability = some r)
    (soil_data : SoilData) (weather_data : WeatherData) :
    assess_soil_suitability soil_data crop_name =
      0.3 * (if r.ph_min ≤ soil_data.ph ∧ soil_data.ph ≤ r.ph_max then 1 else 0.5) +
      0.3 * (if soil_data.texture ∈ r.soil_types then 1 else 0.7) +
      0.4 * min 1 (soil_data.organic_carbon / 2) ∧
    assess_weather_suitability weather_data crop_name =
      0.6 * (if r.temp_min ≤ weather_data.temperature_c ∧
          weather_data.temperature_c ≤ r.temp_max then 1 else 0.5) +
      0.4 * rainfall_score r weather_data.rainfall_mm ∧
    combined_score soil_data weather_data crop_name =
      (assess_soil_suitability soil_data crop_name +
        assess_weather_suitability weather_data crop_name) / 2 := by
  refine ⟨?_, ?_, rfl⟩
  · simp only [assess_soil_suitability, h]
    ring
  · simp only [assess_weather_suitability, h]
    ring

/-- Witness for `suitability_score_formulas` at the sample request and the
crop `Maize`. -/
theorem suitability_score_formulas_witness :
    assess_soil_suitability example_soil "Maize" = 21/25 ∧
    assess_weather_suitability example_weather "Maize" = 1 ∧
    combined_score example_soil example_weather "Maize" = 23/25 := by
  obtain ⟨h1, h2, h3⟩ :=
    suitability_score_formulas "Maize" maize_rules rfl example_soil example_weather
  have e1 : assess_soil_suitability example_soil "Maize" = 21/25 := by
    rw [h1]
    norm_num [maize_rules, example_soil, min_def]
  have e2 : assess_weather_suitability example_weather "Maize" = 1 := by
    rw [h2]
    norm_num [maize_rules, example_weather, rainfall_score]
  exact ⟨e1, e2, by rw [h3, e1, e2]; norm_num⟩

/-- **C8**: for every crop in the rule table and every soil input with
nonnegative organic carbon, the soil suitability score lies in
`[0.36, 1]` — the pH and texture components contribute at least
`0.5 * 0.3 + 0.7 * 0.3 = 0.36` even when both are out of range. -/
theorem soil_suitability_bounds (crop_name : String) (r : CropRules)
    (h : List.lookup crop_name crop_suitability = some r)
    (soil_data : SoilData) (hoc : 0 ≤ soil_data.organic_carbon) :
    0.36 ≤ assess_soil_suitability soil_data crop_name ∧
      assess_soil_suitability soil_data crop_name ≤ 1 := by
  simp only [assess_soil_suitability, h]
  have hmin1 : min 1 (soil_data.organic_carbon / 2) ≤ 1 := min_le_left _ _
  have hmin0 : (0:ℚ) ≤ min 1 (soil_data.organic_carbon / 2) :=
    le_min (by norm_num) (by positivity)
  split_ifs <;> constructor <;> nlinarith

/-- Witness for `soil_suitability_bounds` at the sample request and `Maize`. -/
theorem soil_suitability_bounds_witness :
    (0:ℚ) ≤ example_soil.organic_carbon ∧
    (0.36 ≤ assess_soil_suitability example_soil "Maize" ∧
      assess_soil_suitability example_soil "Maize" ≤ 1) := by
  have hoc : (0:ℚ) ≤ example_soil.organic_carbon := by norm_num [example_soil]
  exact ⟨hoc, soil_suitability_bounds "Maize" maize_rules rfl example_soil hoc⟩

/-- **C9**: every generated recommendation lists exactly the trees
`["Mango", "Gliricidia"]`: `recommend_trees` ignores its soil and weather
arguments and returns the whole static two-entry tree table in insertion
order, and the composer keeps its first two entries. -/
theorem recommendation_trees_constant (soil_data : SoilData)
    (weather_data : WeatherData) (economic_data : EconomicData)
    (land_area_acres : ℚ) (location : String) :
    (generate_recommendation soil_data weather_data economic_data land_area_acres
      location).trees = ["Mango", "Gliricidia"] := rfl

/-- **C4** (counterexample): at rainfall 0 the rainfall score of the crop
`Maize` is 0, which does not lie in the half-open interval `(0, 1]` asserted
by the claim. -/
theorem rainfall_score_zero_cex :
    List.lookup "Maize" crop_suitability = some maize_rules ∧
    rainfall_score maize_rules 0 = 0 ∧
    ¬ 0 < rainfall_score maize_rules 0 := by
  have hz : rainfall_score maize_rules 0 = 0 := by
    rw [rainfall_score]
    norm_num [maize_rules]
  exact ⟨rfl, hz, by rw [hz]; norm_num⟩

/-- **C4** (amended): for every crop in the rule table and every nonnegative
rainfall, the rainfall score is 1 inside `[rainfall_min, rainfall_max]` and
the ratio of the actual rainfall to the nearest bound outside it, and it
always lies in the closed interval `[0, 1]`. -/
theorem rainfall_score_spec (crop_name : String) (r : CropRules)
    (h : List.lookup crop_name crop_suitability = some r)
    (rain : ℚ) (hrain : 0 ≤ rain) :
    (r.rainfall_min ≤ rain ∧ rain ≤ r.rainfall_max → rainfall_score r rain = 1) ∧
    (rain < r.rainfall_min → rainfall_score r rain = rain / r.rainfall_min) ∧
    (r.rainfall_max < rain → rainfall_score r rain = r.rainfall_max / rain) ∧
    0 ≤ rainfall_score r rain ∧ rainfall_score r rain ≤ 1 := by
  obtain ⟨hmin, hminmax⟩ := crop_rules_rainfall_pos _ (lookup_mem h)
  rw [rainfall_score]
  split_ifs with h1 h2
  · refine ⟨fun hw => absurd h1 (not_lt.2 hw.1), fun _ => rfl,
      fun hmax => absurd h1 (by simp only [not_lt]; linarith), ?_, ?_⟩
    · exact div_nonneg hrain hmin.le
    · exact (div_le_one hmin).2 h1.le
  · have h0 : 0 < rain := lt_of_lt_of_le hmin (not_lt.1 h1)
    refine ⟨fun hw => absurd h2 (not_lt.2 hw.2), fun hlt => absurd hlt h1,
      fun _ => rfl, ?_, ?_⟩
    · exact div_nonneg (le_trans hmin.le hminmax) h0.le
    · exact (div_le_one h0).2 h2.le
  · exact ⟨fun _ => rfl, fun hlt => absurd hlt h1, fun hgt => absurd hgt h2,
      by norm_num, by norm_num⟩

/-- Witness for `rainfall_score_spec`: at the sample rainfall of 850 mm the
rainfall score of `Maize` is 1. -/
theorem rainfall_score_spec_witness :
    (0:ℚ) ≤ 850 ∧ rainfall_score maize_rules 850 = 1 := by
  refine ⟨by norm_num, ?_⟩
  exact (rainfall_score_spec "Maize" maize_rules rfl 850 (by norm_num)).1
    (by norm_num [maize_rules])

/-- **C7**: every alias of the standardization table maps to its canonical
crop name; any input whose stripped form has no exact alias match is cleaned
so that the result contains no space, hyphen, parenthesis or comma; the
empty string maps to the empty string. -/
theorem normalizer_spec :
    (∀ p ∈ crop_name_standardizations, standardize_crop_names p.1 = p.2) ∧
    (∀ s : String,
      List.lookup (⟨pyStrip s.toList⟩ : String) crop_name_standardizations = none →
      ∀ c ∈ (standardize_crop_names s).toList,
        c ≠ ' ' ∧ c ≠ '-' ∧ c ≠ '(' ∧ c ≠ ')' ∧ c ≠ ',') ∧
    standardize_crop_names "" = "" := by
  refine ⟨by decide, ?_, rfl⟩
  intro s h c hc
  simp only [standardize_crop_names, h] at hc
  simp only [clean_crop_name, String.toList] at hc
  obtain ⟨hc1, hne_comma⟩ := mem_pyRemoveChar.1 hc
  obtain ⟨hc2, hne_rp⟩ := mem_pyRemoveChar.1 hc1
  obtain ⟨hc3, hne_lp⟩ := mem_pyRemoveChar.1 hc2
  have hne_dash : c ≠ '-' := ne_of_mem_pyReplaceChar (by decide) hc3
  have hne_space : c ≠ ' ' := by
    rcases mem_pyReplaceChar hc3 with rfl | hc4
    · decide
    · exact ne_of_mem_pyReplaceChar (by decide) hc4
  exact ⟨hne_space, hne_dash, hne_lp, hne_rp, hne_comma⟩

/-- Witness for `normalizer_spec`: a concrete alias maps to its canonical
name, and a concrete non-alias input loses its space. -/
theorem normalizer_spec_witness :
    standardize_crop_names "Food grains (cereals) - Rice" = "Rice" ∧
    ' ' ∉ (standardize_crop_names "Sugar cane").toList := by
  constructor
  · exact normalizer_spec.1 ("Food grains (cereals) - Rice", "Rice") (by decide)
  · intro hmem
    exact (normalizer_spec.2.1 "Sugar cane" (by decide) ' ' hmem).1 rfl

/-- A wide table with a `Year` column but no rows and no crop columns. -/
def empty_wide_table : WideTable :=
  { hasYear := true, yearVals := [], cropCols := [] }

/-- A wide table without a `Year` column. -/
def sample_wide_no_year : WideTable :=
  { hasYear := false, yearVals := ["2001"], cropCols := [("A", [some 1])] }

/-- A one-row, one-crop wide table with a `Year` column. -/
def sample_wide : WideTable :=
  { hasYear := true, yearVals := ["2001"], cropCols := [("A", [some 1])] }

/-- An empty wide table (no rows or no columns) prepares to `none` (when the
`Year` column is also missing) or to the empty long-form table. -/
theorem prepare_of_empty_table (t : WideTable)
    (h : t.yearVals = [] ∨ t.cropCols = []) :
    prepare_crop_data_for_merging (some t) = none ∨
      prepare_crop_data_for_merging (some t) = some [] := by
  cases hy : t.hasYear
  · exact Or.inl (by simp [prepare_crop_data_for_merging, hy])
  · refine Or.inr ?_
    have hmelt : melt_wide t = [] := by
      rcases h with h | h <;> simp [melt_wide, h]
    simp [prepare_crop_data_for_merging, hy, hmelt]

/-- Merging with an empty right table yields the empty table. -/
theorem merge_area_yield_nil_right (a : List LongRow) :
    merge_area_yield a [] = [] := by
  simp [merge_area_yield]

/-- Merging with an empty right production table yields the empty table. -/
theorem merge_with_production_nil_right (m : List (String × String × ℚ × ℚ)) :
    merge_with_production m [] = [] := by
  simp [merge_with_production]

/-- The feature dictionary is empty whenever the fully merged table is. -/
theorem create_derived_features_of_merged_nil (a y p : Option WideTable)
    (la ly lp : List LongRow)
    (ha : prepare_crop_data_for_merging a = some la)
    (hy : prepare_crop_data_for_merging y = some ly)
    (hp : prepare_crop_data_for_merging p = some lp)
    (hm : merge_with_production (merge_area_yield la ly) lp = []) :
    create_derived_features a y p = [] := by
  simp [create_derived_features, ha, hy, hp, hm]

/-- **C5**: the feature merger returns the empty feature mapping whenever any
of the three input tables is absent (`None`) or empty (no rows or no
columns), whatever the other two tables are; in particular with all three
tables empty it returns the empty mapping. The embedding is total,
mirroring the try/except that keeps any merge-time exception from
propagating. -/
theorem feature_merger_empty_inputs :
    (∀ y p, create_derived_features none y p = []) ∧
    (∀ a p, create_derived_features a none p = []) ∧
    (∀ a y, create_derived_features a y none = []) ∧
    (∀ (t : WideTable) y p, t.yearVals = [] ∨ t.cropCols = [] →
      create_derived_features (some t) y p = []) ∧
    (∀ (t : WideTable) a p, t.yearVals = [] ∨ t.cropCols = [] →
      create_derived_features a (some t) p = []) ∧
    (∀ (t : WideTable) a y, t.yearVals = [] ∨ t.cropCols = [] →
      create_derived_features a y (some t) = []) ∧
    create_derived_features (some empty_wide_table) (some empty_wide_table)
      (some empty_wide_table) = [] := by
  refine ⟨?_, ?_, ?_, ?_, ?_, ?_, rfl⟩
  · intro y p; simp [create_derived_features, prepare_crop_data_for_merging]
  · intro a p; simp [create_derived_features, prepare_crop_data_for_merging]
  · intro a y; simp [create_derived_features, prepare_crop_data_for_merging]
  · intro t y p ht
    rcases prepare_of_empty_table t ht with h | h
    · simp [create_derived_features, h]
    · cases hy2 : prepare_crop_data_for_merging y with
      | none => simp [create_derived_features, hy2]
      | some ly =>
        cases hp2 : prepare_crop_data_for_merging p with
        | none => simp [create_derived_features, hp2]
        | some lp => exact create_derived_features_of_merged_nil _ _ _ _ _ _ h hy2 hp2 rfl
  · intro t a p ht
    rcases prepare_of_empty_table t ht with h | h
    · simp [create_derived_features, h]
    · cases ha2 : prepare_crop_data_for_merging a with
      | none => simp [create_derived_features, ha2]
      | some la =>
        cases hp2 : prepare_crop_data_for_merging p with
        | none => simp [create_derived_features, hp2]
        | some lp =>
          exact create_derived_features_of_merged_nil _ _ _ _ _ _ ha2 h hp2
            (by rw [merge_area_yield_nil_right]; rfl)
  · intro t a y ht
    rcases prepare_of_empty_table t ht with h | h
    · simp [create_derived_features, h]
    · cases ha2 : prepare_crop_data_for_merging a with
      | none => simp [create_derived_features, ha2]
      | some la =>
        cases hy2 : prepare_crop_data_for_merging y with
        | none => simp [create_derived_features, hy2]
        | some ly =>
          exact create_derived_features_of_merged_nil _ _ _ _ _ _ ha2 hy2 h
            (merge_with_production_nil_right _)

/-- Witness for `feature_merger_empty_inputs`: one empty table combined with
two nonempty ones still yields the empty feature mapping. -/
theorem feature_merger_empty_inputs_witness :
    (empty_wide_table.yearVals = [] ∨ empty_wide_table.cropCols = []) ∧
    create_derived_features (some empty_wide_table) (some sample_wide)
      (some sample_wide) = [] :=
  ⟨Or.inl rfl, feature_merger_empty_inputs.2.2.2.1 empty_wide_table
    (some sample_wide) (some sample_wide) (Or.inl rfl)⟩

/-- Helper: the sum of a constant map is the length times the constant. -/
theorem sum_map_const_nat {α : Type} (l : List α) (k : ℕ) :
    (l.map (fun _ => k)).sum = l.length * k := by
  induction l with
  | nil => simp
  | cons x xs ih => simp [ih, Nat.succ_mul, Nat.add_comm]

/-- **C6**: the long-form transformer returns `none` when the `Year` column
is missing; on a well-formed wide table with `R` rows and `N` crop columns
the melted frame has exactly `R * N` entries; and every row of the prepared
output originates from a numeric cell, so non-numeric cells are dropped
entirely rather than kept as zero-valued rows. -/
theorem long_form_transform_spec :
    (∀ t : WideTable, t.hasYear = false →
      prepare_crop_data_for_merging (some t) = none) ∧
    (∀ t : WideTable, (∀ c ∈ t.cropCols, c.2.length = t.yearVals.length) →
      (melt_wide t).length = t.yearVals.length * t.cropCols.length) ∧
    (∀ (t : WideTable) (l : List LongRow),
      prepare_crop_data_for_merging (some t) = some l →
      ∀ r ∈ l, ∃ m ∈ melt_wide t, ∃ q : ℚ, m.value = some q ∧
        r = LongRow.mk m.year (standardize_crop_names m.crop) q) := by
  refine ⟨?_, ?_, ?_⟩
  · intro t h
    simp [prepare_crop_data_for_merging, h]
  · intro t h
    rw [melt_wide, List.length_flatMap]
    have hcongr : t.cropCols.map (List.length ∘ fun col =>
        (t.yearVals.zip col.2).map (fun yv => MeltedRow.mk yv.1 col.1 yv.2)) =
        t.cropCols.map (fun _ => t.yearVals.length) := by
      apply List.map_congr_left
      intro c hc
      simp [List.length_zip, h c hc]
    rw [hcongr, sum_map_const_nat, Nat.mul_comm]
  · intro t l h r hr
    rw [prepare_crop_data_for_merging] at h
    by_cases hy : t.hasYear
    · simp only [hy, if_true, Option.some.injEq] at h
      rw [← h] at hr
      rcases List.mem_map.1 hr with ⟨r', hr', rfl⟩
      rcases List.mem_filterMap.1 hr' with ⟨m, hm, hfm⟩
      rcases Option.map_eq_some'.1 hfm with ⟨q, hq, hmk⟩
      exact ⟨m, hm, q, hq, by rw [← hmk]⟩
    · simp [hy] at h

/-- Witness for `long_form_transform_spec` on concrete one-cell tables. -/
theorem long_form_transform_spec_witness :
    prepare_crop_data_for_merging (some sample_wide_no_year) = none ∧
    (melt_wide sample_wide).length = 1 * 1 ∧
    (∃ m ∈ melt_wide sample_wide, ∃ q : ℚ, m.value = some q ∧
      LongRow.mk "2001" (standardize_crop_names "A") 1 =
        LongRow.mk m.year (standardize_crop_names m.crop) q) := by
  refine ⟨long_form_transform_spec.1 _ rfl,
    long_form_transform_spec.2.1 sample_wide ?_, ?_⟩
  · intro c hc
    simp only [sample_wide, List.mem_cons, List.not_mem_nil, or_false] at hc
    subst hc
    rfl
  · exact long_form_transform_spec.2.2 sample_wide
      [LongRow.mk "2001" (standardize_crop_names "A") 1] rfl _ (by simp)

/-- **C10**: the module-level `standardize_crop_names` and
`create_derived_features` of `process_historical_datasets.py` and the
`DataProcessor` methods of the same names are extensionally equal — the two
copies implement the same functions. -/
theorem processor_copies_agree :
    (∀ name, DataProcessor.standardize_crop_names name = standardize_crop_names name) ∧
    (∀ a y p, DataProcessor.create_derived_features a y p =
      create_derived_features a y p) :=
  ⟨fun _ => rfl, fun _ _ _ => rfl⟩

/-- The single-record `area` table of the C3 scenario. -/
def rice_area_table : WideTable :=
  { hasYear := true, yearVals := ["2001"], cropCols := [("Rice", [some 1000])] }

/-- The single-record `yield` table of the C3 scenario. -/
def rice_yield_table : WideTable :=
  { hasYear := true, yearVals := ["2001"], cropCols := [("Rice", [some (5/2)])] }

/-- The single-record `production` table of the C3 scenario. -/
def rice_production_table : WideTable :=
  { hasYear := true, yearVals := ["2001"], cropCols := [("Rice", [some 2500])] }

/-- **C3**: on the single-record input Area=(Rice,2001,1000),
Yield=(Rice,2001,2.5), Production=(Rice,2001,2500) the feature merger
returns yield_per_area 2500/1000 = 2.5 and yield_efficiency
2.5/1000 = 0.0025 for Rice. -/
theorem feature_merger_rice_example :
    create_derived_features (some rice_area_table) (some rice_yield_table)
      (some rice_production_table) =
      [("yield_per_area_Rice", 5/2), ("yield_efficiency_Rice", 1/400)] := by
  have hred : create_derived_features (some rice_area_table) (some rice_yield_table)
      (some rice_production_table) =
      [("yield_per_area_Rice", listMean [(2500:ℚ)/1000]),
       ("yield_efficiency_Rice", listMean [(5/2:ℚ)/1000])] := rfl
  rw [hred]
  norm_num [listMean]

/-- Helper: the cons case of the main-crop / intercrop selection. -/
theorem select_main_and_intercrop_cons (p : String × ℚ) (rest : List (String × ℚ)) :
    select_main_and_intercrop (p :: rest) =
      (p.1, ((rest.find? (fun q =>
        decide (crop_type_of q.1 ≠ crop_type_of p.1))).map Prod.fst).getD "Cowpea") := by
  simp only [select_main_and_intercrop]
  cases hf : rest.find? (fun q => decide (crop_type_of q.1 ≠ crop_type_of p.1)) <;>
    rfl

/-- **C2**: `recommend_crops` scores every crop of the rule table, sorts
descending by combined score, keeps only scores above 0.5 and returns at
most 5 candidates; `generate_recommendation` takes the head candidate as
main crop (default `Maize` when the list is empty) and the first later
candidate of a different crop category as intercrop (default `Cowpea`). -/
theorem crop_ranking_and_composition (soil_data : SoilData)
    (weather_data : WeatherData) (economic_data : EconomicData)
    (land_area_acres : ℚ) (location : String) :
    (recommend_crops soil_data weather_data).length ≤ 5 ∧
    (recommend_crops soil_data weather_data).Pairwise (fun a b => b.2 ≤ a.2) ∧
    (∀ p ∈ recommend_crops soil_data weather_data,
      (0.5:ℚ) < p.2 ∧ p.2 = combined_score soil_data weather_data p.1 ∧
      p.1 ∈ crop_suitability.map Prod.fst) ∧
    (∀ c ∈ crop_suitability,
      (0.5:ℚ) < combined_score soil_data weather_data c.1 →
      (c.1, combined_score soil_data weather_data c.1) ∈
          recommend_crops soil_data weather_data ∨
        (recommend_crops soil_data weather_data).length = 5) ∧
    (recommend_crops soil_data weather_data = [] →
      (generate_recommendation soil_data weather_data economic_data
        land_area_acres location).main_crop = "Maize" ∧
      (generate_recommendation soil_data weather_data economic_data
        land_area_acres location).intercrop = "Cowpea") ∧
    (∀ p rest, recommend_crops soil_data weather_data = p :: rest →
      (generate_recommendation soil_data weather_data economic_data
        land_area_acres location).main_crop = p.1 ∧
      (generate_recommendation soil_data weather_data economic_data
        land_area_acres location).intercrop =
        ((rest.find? (fun q =>
          decide (crop_type_of q.1 ≠ crop_type_of p.1))).map Prod.fst).getD
          "Cowpea") := by
  have hrc : recommend_crops soil_data weather_data =
      ((sortScoredDesc (crop_suitability.map
          (fun c => (c.1, combined_score soil_data weather_data c.1)))).filter
        (fun p => decide ((0.5:ℚ) < p.2))).take 5 := rfl
  refine ⟨?_, ?_, ?_, ?_, ?_, ?_⟩
  · rw [hrc, List.length_take]
    exact min_le_left _ _
  · rw [hrc]
    exact List.Pairwise.sublist (List.take_sublist 5 _)
      (List.Pairwise.filter _ (sortScoredDesc_pairwise _))
  · intro p hp
    rw [hrc] at hp
    obtain ⟨hp2, hdec⟩ := List.mem_filter.1 (List.mem_of_mem_take hp)
    have hp3 : p ∈ crop_suitability.map
        (fun c => (c.1, combined_score soil_data weather_data c.1)) :=
      (sortScoredDesc_perm _).subset hp2
    rcases List.mem_map.1 hp3 with ⟨c, hc, rfl⟩
    exact ⟨of_decide_eq_true hdec, rfl, List.mem_map_of_mem Prod.fst hc⟩
  · intro c hc h05
    have hq2 : (c.1, combined_score soil_data weather_data c.1) ∈
        sortScoredDesc (crop_suitability.map
          (fun c => (c.1, combined_score soil_data weather_data c.1))) :=
      (sortScoredDesc_perm _).mem_iff.2 (List.mem_map_of_mem _ hc)
    have hq3 : (c.1, combined_score soil_data weather_data c.1) ∈
        (sortScoredDesc (crop_suitability.map
          (fun c => (c.1, combined_score soil_data weather_data c.1)))).filter
        (fun p => decide ((0.5:ℚ) < p.2)) :=
      List.mem_filter.2 ⟨hq2, decide_eq_true h05⟩
    rcases mem_take_or_length_eq 5 hq3 with h | h
    · left; rw [hrc]; exact h
    · right; rw [hrc]; exact h
  · intro h
    constructor <;> simp [generate_recommendation, select_main_and_intercrop, h]
  · intro p rest h
    have hmain : (generate_recommendation soil_data weather_data economic_data
        land_area_acres location).main_crop =
        (select_main_and_intercrop (recommend_crops soil_data weather_data)).1 := rfl
    have hinter : (generate_recommendation soil_data weather_data economic_data
        land_area_acres location).intercrop =
        (select_main_and_intercrop (recommend_crops soil_data weather_data)).2 := rfl
    rw [hmain, hinter, h, select_main_and_intercrop_cons]
    exact ⟨rfl, rfl⟩

/-- Witness for `crop_ranking_and_composition`: on the degraded inputs no
crop clears the 0.5 threshold, so the composer falls back to Maize and
Cowpea. -/
theorem crop_ranking_and_composition_witness :
    recommend_crops barren_soil arid_weather = [] ∧
    (generate_recommendation barren_soil arid_weather example_economic 5
      "Belagavi").main_crop = "Maize" ∧
    (generate_recommendation barren_soil arid_weather example_economic 5
      "Belagavi").intercrop = "Cowpea" := by
  have hM : combined_score barren_soil arid_weather "Maize" = 33/100 := by
    simp only [combined_score, assess_soil_suitability, assess_weather_suitability,
      show List.lookup "Maize" crop_suitability = some maize_rules from rfl]
    norm_num [maize_rules, barren_soil, arid_weather, rainfall_score, min_def]
    rw [if_neg (by decide)]
    norm_num
  have hC : combined_score barren_soil arid_weather "Cowpea" = 33/100 := by
    simp only [combined_score, assess_soil_suitability, assess_weather_suitability,
      show List.lookup "Cowpea" crop_suitability = some cowpea_rules from rfl]
    norm_num [cowpea_rules, barren_soil, arid_weather, rainfall_score, min_def]
    rw [if_neg (by decide)]
    norm_num
  have hMg : combined_score barren_soil arid_weather "Mango" = 33/100 := by
    simp only [combined_score, assess_soil_suitability, assess_weather_suitability,
      show List.lookup "Mango" crop_suitability = some mango_rules from rfl]
    norm_num [mango_rules, barren_soil, arid_weather, rainfall_score, min_def]
    rw [if_neg (by decide)]
    norm_num
  have hG : combined_score barren_soil arid_weather "Gliricidia" = 33/100 := by
    simp only [combined_score, assess_soil_suitability, assess_weather_suitability,
      show List.lookup "Gliricidia" crop_suitability = some gliricidia_rules from rfl]
    norm_num [gliricidia_rules, barren_soil, arid_weather, rainfall_score, min_def]
    rw [if_neg (by decide)]
    norm_num
  have hT : combined_score barren_soil arid_weather "Turmeric" = 33/100 := by
    simp only [combined_score, assess_soil_suitability, assess_weather_suitability,
      show List.lookup "Turmeric" crop_suitability = some turmeric_rules from rfl]
    norm_num [turmeric_rules, barren_soil, arid_weather, rainfall_score, min_def]
    rw [if_neg (by decide)]
    norm_num
  have hS : combined_score barren_soil arid_weather "Sorghum" = 33/100 := by
    simp only [combined_score, assess_soil_suitability, assess_weather_suitability,
      show List.lookup "Sorghum" crop_suitability = some sorghum_rules from rfl]
    norm_num [sorghum_rules, barren_soil, arid_weather, rainfall_score, min_def]
    rw [if_neg (by decide)]
    norm_num
  have h : recommend_crops barren_soil arid_weather = [] := by
    simp only [recommend_crops, crop_suitability, List.map]
    rw [hM, hC, hMg, hG, hT, hS]
    norm_num [sortScoredDesc, insertScoredDesc, List.filter]
  have h2 := (crop_ranking_and_composition barren_soil arid_weather
    example_economic 5 "Belagavi").2.2.2.2.1 h
  exact ⟨h, h2.1, h2.2⟩

end DigitalRaita
